import Mathlib

/-!
Shallow embedding of `src/iotcmqtt/mqttclient.py` (the `MqttClient` wrapper
around a paho-style MQTT protocol engine), together with proofs about the
behaviour its specification describes.

Modelling conventions:
* Optional Python arguments are `Option` values; Python truthiness of a
  string-or-None value (`x or default`, `if password: ...`) is made explicit
  via `pyTruthy` / `pyOr*` helpers (None and `""`/`0`/`False` are falsy).
* The caller-supplied birth/will dicts are records of optional fields
  (`MsgDict`); Python key-presence (`"topic" not in d`) is `Option.isSome`,
  and dict truthiness (`if birth_message:`) is "at least one key present".
* Python exceptions are an explicit error type `PyErr`; methods that can
  raise return a `StepResult` carrying an optional error, the object state
  at the point control returns (or at the raise), and the ordered list of
  observable effects (calls into the protocol engine, caller-hook
  invocations, sleeps).
* The engine is simulated by a parameter `signalAt : Option Nat`: the tick
  of the 0.1-time-unit spin-wait at which the engine delivers the connect
  event to `_on_connect` (`none` = the engine never signals connect).
* Time is exact: the spin-wait counter `seconds_passed` is kept in tenths
  of a time-unit as a `Nat`, so `seconds_passed > timeout` is `s > 50`.
-/

namespace EasyMqtt

/-- Python truthiness of a string-or-None value: `None` and `""` are falsy. -/
def pyTruthy : Option String → Bool
  | none => false
  | some s => s ≠ ""

/-- Python `x or d` for an optional string argument. -/
def pyOrStr (x : Option String) (d : String) : String :=
  match x with
  | some s => if s ≠ "" then s else d
  | none => d

/-- Python `x or d` for an optional integer argument (`0` is falsy). -/
def pyOrInt (x : Option Int) (d : Int) : Int :=
  match x with
  | some n => if n ≠ 0 then n else d
  | none => d

/-- Python `x or d` for an optional boolean argument (`False` is falsy). -/
def pyOrBool (x : Option Bool) (d : Bool) : Bool :=
  match x with
  | some b => if b then b else d
  | none => d

/-- Python `f-string` interpolation of a string-or-None value: `None` renders
as the literal text `"None"`. -/
def pyStrOpt : Option String → String
  | none => "None"
  | some s => s

/-- A caller-supplied birth/will message dict. Each field is `none` when the
corresponding key is absent from the dict. The payload value itself is a
Python string-or-None, hence the nested `Option`. -/
structure MsgDict where
  topic : Option String
  payload : Option (Option String)
  qos : Option Int
  retain : Option Bool
  deriving Repr, DecidableEq

/-- Python truthiness of a dict: truthy iff non-empty (some key present). -/
def MsgDict.truthy (d : MsgDict) : Bool :=
  d.topic.isSome || d.payload.isSome || d.qos.isSome || d.retain.isSome

/-- A fully-resolved message specification, as stored on the wrapper after
construction: all four keys present. -/
structure MessageSpec where
  topic : String
  payload : Option String
  qos : Int
  retain : Bool
  deriving Repr, DecidableEq

/-- Python exceptions raised by the wrapper. The constructor raises
`AttributeError` for configuration problems, `_start_client` raises
`ConnectionError` on the spin-wait timeout, and dereferencing the absent
engine handle (`self._client` is `None`) raises an `AttributeError`. -/
inductive PyErr where
  | attributeError (msg : String)
  | connectionError (msg : String)
  deriving Repr, DecidableEq

/-- The default MessageSpec synthesized by `__init__` when the caller supplies
no (or a falsy) birth/will dict: topic `clients/{client_id}/connected`
(f-string, so an absent client id renders as `None`), QoS 1, retain True. -/
def defaultSpec (client_id : Option String) (payload : String) : MessageSpec :=
  { topic := "clients/" ++ pyStrOpt client_id ++ "/connected"
    payload := some payload
    qos := 1
    retain := true }

/-- The birth/will defaulting logic of `__init__`: a truthy caller dict must
have a `topic` key (else `AttributeError err`), and its missing keys are
filled with payload `None`, qos `0`, retain `False`; a falsy argument
(absent, or an empty dict) is replaced by the synthesized default. -/
def resolveSpec (d : Option MsgDict) (dflt : MessageSpec) (err : PyErr) :
    Except PyErr MessageSpec :=
  match d with
  | some dd =>
    if dd.truthy then
      match dd.topic with
      | none => .error err
      | some t =>
        .ok { topic := t
              payload := dd.payload.getD none
              qos := dd.qos.getD 0
              retain := dd.retain.getD false }
    else .ok dflt
  | none => .ok dflt

/-- The wrapper state. `κ` is the (opaque) type of caller-supplied
callbacks. `client` records whether `self._client` currently references an
engine object (`false` = Python `None`). -/
structure MqttClient (κ : Type) where
  subscribe_topics : List (String × κ)
  on_connect : Option κ
  on_disconnect : Option κ
  broker_host : String
  broker_port : Int
  client_id : Option String
  username : Option String
  password : Option String
  birth_message : MessageSpec
  will_message : MessageSpec
  threaded : Bool
  connected : Bool
  client : Bool
  deriving Repr, DecidableEq

/-- Construction, `MqttClient.__init__`, in source order: empty dispatch table, hook
storage, `or`-defaulting of host/port, the password-implies-username check,
birth then will defaulting, `threaded or True`, `_connected = False`,
`_client = None`. -/
def mqttInit {κ : Type} (on_connect on_disconnect : Option κ)
    (broker_host : Option String) (broker_port : Option Int)
    (client_id : Option String) (username password : Option String)
    (birth_message will_message : Option MsgDict) (threaded : Option Bool) :
    Except PyErr (MqttClient κ) :=
  if pyTruthy password && !(pyTruthy username) then
    .error (.attributeError "Must provide username if using password")
  else
    match resolveSpec birth_message (defaultSpec client_id "1")
        (.attributeError "birth_message must have \"topic\" key") with
    | .error e => .error e
    | .ok birth =>
    match resolveSpec will_message (defaultSpec client_id "0")
        (.attributeError "will_message must have \"topic\" key") with
    | .error e => .error e
    | .ok will =>
    .ok { subscribe_topics := []
          on_connect := on_connect
          on_disconnect := on_disconnect
          broker_host := pyOrStr broker_host "127.0.0.1"
          broker_port := pyOrInt broker_port 1883
          client_id := client_id
          username := username
          password := password
          birth_message := birth
          will_message := will
          threaded := pyOrBool threaded true
          connected := false
          client := false }

/-- An incoming MQTT message event, as handed to `_on_message`: the wrapper
only inspects `message.topic`; the rest is opaque payload data. -/
structure MessageEv (α : Type) where
  topic : String
  data : α
  deriving Repr, DecidableEq

/-- Observable effects of a wrapper method: calls into the protocol engine,
invocations of caller-supplied callbacks, and the 0.1-time-unit sleeps of the
connect spin-wait. `α` is the opaque type of event arguments. -/
inductive Effect (α κ : Type) where
  | engNewClient (client_id : Option String)
  | engWillSet (topic : String) (payload : Option String) (qos : Int) (retain : Bool)
  | engUsernamePwSet (username : Option String) (password : Option String)
  | engConnect (host : String) (port : Int)
  | engLoopStart
  | engLoopForever
  | engLoopStop
  | engDisconnect
  | engPublish (topic : String) (payload : Option String) (qos : Int) (retain : Bool)
  | engSubscribe (topic : String) (qos : Int)
  | engUnsubscribe (topic : String)
  | hookCall (hook : κ) (args : α)
  | msgCallback (cb : κ) (client : α) (userdata : α) (message : MessageEv α)
  | sleep
  deriving Repr, DecidableEq

/-- Result of running a wrapper method: the raised exception if any, the
object state when control leaves the method (at normal return or at the
raise), and the ordered effect trace produced up to that point. -/
structure StepResult (α κ : Type) where
  err : Option PyErr
  state : MqttClient κ
  trace : List (Effect α κ)
  deriving Repr, DecidableEq

/-- Python dict lookup on the dispatch table (`self._subscribe_topics`):
the value stored under key `k`, if present. -/
def dictGet {κ : Type} (d : List (String × κ)) (k : String) : Option κ :=
  match d with
  | [] => none
  | p :: ps => if p.1 = k then some p.2 else dictGet ps k

/-- Python `del d[k]`: removes the entry for `k`. -/
def dictDel {κ : Type} (d : List (String × κ)) (k : String) :
    List (String × κ) :=
  match d with
  | [] => []
  | p :: ps => if p.1 = k then dictDel ps k else p :: dictDel ps k

/-- Python dict assignment `d[k] = v`: overwrites any existing entry for `k`
(the entry order of the dispatch table is irrelevant, so the updated entry is
kept in front). -/
def dictSet {κ : Type} (d : List (String × κ)) (k : String) (v : κ) :
    List (String × κ) :=
  (k, v) :: dictDel d k

/-- Handler `MqttClient._on_connect(*args, **kwargs)`: sets `_connected = True`,
publishes the birth message via the engine, then invokes the caller
`on_connect` hook with the event arguments forwarded unchanged. (The
source guards the publish with `if self.birth_message:`; after `__init__`
the stored birth dict always has all four keys, so it is never falsy and
the guard is identically true in this state type.) -/
def onConnectHandler {α κ : Type} (c : MqttClient κ) (args : α) :
    MqttClient κ × List (Effect α κ) :=
  ({ c with connected := true },
    Effect.engPublish c.birth_message.topic c.birth_message.payload
        c.birth_message.qos c.birth_message.retain ::
      (match c.on_connect with
        | some h => [Effect.hookCall h args]
        | none => []))

/-- Handler `MqttClient._on_message(client, userdata, message)`: dispatches to the
callback registered for the topic of the message, if any; otherwise drops the
message silently. -/
def onMessage {α κ : Type} (c : MqttClient κ) (client userdata : α)
    (message : MessageEv α) : List (Effect α κ) :=
  match dictGet c.subscribe_topics message.topic with
  | some cb => [Effect.msgCallback cb client userdata message]
  | none => []

/-- The `# Spin until connected` loop of `_start_client`, with
`seconds_passed` kept in tenths (`s`): while not connected, raise
`ConnectionError` once `s > 50` (i.e. `seconds_passed > 5`), else sleep one
tick. The simulated engine delivers the connect event to `_on_connect` at
tick `signalAt` (never, when `none`). -/
def spin {α κ : Type} (signalAt : Option Nat) (args : α) (c : MqttClient κ)
    (s : Nat) : StepResult α κ :=
  let fire := if signalAt = some s then onConnectHandler c args else (c, [])
  if fire.1.connected then
    { err := none, state := fire.1, trace := fire.2 }
  else if h : s > 50 then
    { err := some (.connectionError "Timeout waiting to connect to MQTT broker")
      state := fire.1
      trace := fire.2 }
  else
    let r := spin signalAt args fire.1 (s + 1)
    { err := r.err, state := r.state, trace := fire.2 ++ Effect.sleep :: r.trace }
termination_by 51 - s
decreasing_by omega

/-- The fixed engine-call prefix of `_start_client`: create the engine
client, configure the will message (always: the stored will dict is never
falsy), configure credentials when a truthy username exists, open the
network connection, then start the background loop (threaded) or the
blocking loop. -/
def startSetup {α κ : Type} (c : MqttClient κ) : List (Effect α κ) :=
  Effect.engNewClient c.client_id ::
  Effect.engWillSet c.will_message.topic c.will_message.payload
    c.will_message.qos c.will_message.retain ::
  ((if pyTruthy c.username then
      [Effect.engUsernamePwSet c.username c.password]
    else []) ++
    Effect.engConnect c.broker_host c.broker_port ::
    (if c.threaded then [Effect.engLoopStart] else [Effect.engLoopForever]))

/-- Method `MqttClient._start_client`: the `_client` reference becomes non-None,
the `startSetup` engine calls are issued, then the spin-wait runs until
the connect event or the timeout. -/
def startClient {α κ : Type} (c : MqttClient κ) (signalAt : Option Nat)
    (args : α) : StepResult α κ :=
  let r := spin signalAt args { c with client := true } 0
  { err := r.err, state := r.state, trace := startSetup c ++ r.trace }

/-- Method `MqttClient.connect()`: a no-op when already connected, otherwise runs
`_start_client`. -/
def connect {α κ : Type} (c : MqttClient κ) (signalAt : Option Nat)
    (args : α) : StepResult α κ :=
  if c.connected then { err := none, state := c, trace := [] }
  else startClient c signalAt args

/-- Method `MqttClient.disconnect()`: when an engine reference exists, stops its
loop and disconnects it; in every case `_client` is set back to `None`. -/
def disconnect {α κ : Type} (c : MqttClient κ) : StepResult α κ :=
  if c.client then
    { err := none
      state := { c with client := false }
      trace := [Effect.engLoopStop, Effect.engDisconnect] }
  else
    { err := none, state := { c with client := false }, trace := [] }

/-- Method `MqttClient.subscribe(topic, callback, qos)`: calls engine subscribe,
then records the callback in the dispatch table. When `_client` is `None`
the attribute access `self._client.subscribe` raises before either step. -/
def subscribe {α κ : Type} (c : MqttClient κ) (topic : String) (callback : κ)
    (qos : Int) : StepResult α κ :=
  if c.client then
    { err := none
      state := { c with subscribe_topics := dictSet c.subscribe_topics topic callback }
      trace := [Effect.engSubscribe topic qos] }
  else
    { err := some (.attributeError "NoneType object has no attribute subscribe")
      state := c
      trace := [] }

/-- Method `MqttClient.unsubscribe(topic)`: a no-op for an unregistered topic;
otherwise calls engine unsubscribe and deletes the dispatch-table entry
(raising first if `_client` is `None`). -/
def unsubscribe {α κ : Type} (c : MqttClient κ) (topic : String) :
    StepResult α κ :=
  if (dictGet c.subscribe_topics topic).isSome then
    if c.client then
      { err := none
        state := { c with subscribe_topics := dictDel c.subscribe_topics topic }
        trace := [Effect.engUnsubscribe topic] }
    else
      { err := some (.attributeError "NoneType object has no attribute unsubscribe")
        state := c
        trace := [] }
  else
    { err := none, state := c, trace := [] }

/-- Method `MqttClient.publish(topic, message)`: connects first when not connected
(propagating a connect failure), then calls engine publish with the paho
defaults qos 0, retain False (raising if `_client` is still `None`). -/
def publish {α κ : Type} (c : MqttClient κ) (signalAt : Option Nat) (args : α)
    (topic message : String) : StepResult α κ :=
  let r := if c.connected then { err := none, state := c, trace := [] }
           else connect c signalAt args
  match r.err with
  | some e => { err := some e, state := r.state, trace := r.trace }
  | none =>
    if r.state.client then
      { err := none
        state := r.state
        trace := r.trace ++ [Effect.engPublish topic (some message) 0 false] }
    else
      { err := some (.attributeError "NoneType object has no attribute publish")
        state := r.state
        trace := r.trace }

/-- A birth/will constructor argument that does not trip the topic
validation: absent, falsy (empty dict), or carrying a `topic` key. -/
def specArgOk : Option MsgDict → Bool
  | none => true
  | some d => !d.truthy || d.topic.isSome

/-- The wrapper produced by an all-default construction (every constructor
argument absent), used as a concrete test vehicle; callbacks are modelled
by `Nat` tokens. -/
def clientD : MqttClient Nat :=
  { subscribe_topics := []
    on_connect := none
    on_disconnect := none
    broker_host := "127.0.0.1"
    broker_port := 1883
    client_id := none
    username := none
    password := none
    birth_message := { topic := "clients/None/connected", payload := some "1", qos := 1, retain := true }
    will_message := { topic := "clients/None/connected", payload := some "0", qos := 1, retain := true }
    threaded := true
    connected := false
    client := false }

/-! ### Behaviour of the spin-wait -/

/-- When the engine never signals connect, the spin-wait from tick `s`
(`s + n = 51`) raises the timeout after exactly `n` sleeps, leaving the
state untouched. -/
theorem spin_never {α κ : Type} (args : α) :
    ∀ (n s : Nat) (c : MqttClient κ), s + n = 51 → c.connected = false →
      spin (α := α) none args c s =
        { err := some (.connectionError "Timeout waiting to connect to MQTT broker")
          state := c
          trace := List.replicate n Effect.sleep } := by
  intro n
  induction n with
  | zero =>
    intro s c hs hc
    have h51 : s = 51 := by omega
    subst h51
    rw [spin]
    simp [hc]
  | succ n ih =>
    intro s c hs hc
    rw [spin]
    have hle : ¬ s > 50 := by omega
    simp [hc, hle, ih (s + 1) c (by omega) hc, List.replicate_succ]

/-- When the engine signals connect at tick `m ≤ 51`, the spin-wait from
tick `s ≤ m` (with `m = s + n`) sleeps `n` times, then runs `_on_connect`
and returns without error. -/
theorem spin_signal {α κ : Type} (args : α) :
    ∀ (n s m : Nat) (c : MqttClient κ), m = s + n → m ≤ 51 → c.connected = false →
      spin (α := α) (some m) args c s =
        { err := none
          state := (onConnectHandler c args).1
          trace := List.replicate n Effect.sleep ++ (onConnectHandler c args).2 } := by
  intro n
  induction n with
  | zero =>
    intro s m c hm hle hc
    have hsm : m = s := by omega
    subst hsm
    rw [spin]
    simp [onConnectHandler]
  | succ n ih =>
    intro s m c hm hle hc
    rw [spin]
    have hne : ¬ ((some m : Option Nat) = some s) := by simp; omega
    have h50 : ¬ s > 50 := by omega
    simp [hne, hc, h50, ih (s + 1) m c (by omega) hle hc, List.replicate_succ]

/-- The spin-wait never touches the engine handle: the `_client` reference
is unchanged by any run of the loop. -/
theorem spin_client_eq {α κ : Type} (signalAt : Option Nat) (args : α) :
    ∀ (n s : Nat) (c : MqttClient κ), 51 - s ≤ n →
      (spin (α := α) signalAt args c s).state.client = c.client := by
  intro n
  induction n with
  | zero =>
    intro s c h
    rw [spin]
    by_cases hf : signalAt = some s <;>
      by_cases hc : c.connected <;>
        simp [hf, hc, onConnectHandler, show s > 50 by omega]
  | succ n ih =>
    intro s c h
    rw [spin]
    by_cases hf : signalAt = some s
    · by_cases hc : c.connected
      · simp [hf, hc, onConnectHandler]
      · simp [hf, hc, onConnectHandler]
    · by_cases hc : c.connected
      · simp [hf, hc]
      · by_cases h50 : s > 50
        · simp [hf, hc, h50]
        · simp [hf, hc, h50, ih (s + 1) c (by omega)]

/-- The spin-wait only emits sleeps, the birth publish, and the on-connect
hook call: in particular it never invokes the blocking engine loop. -/
theorem spin_no_loopForever {α κ : Type} (signalAt : Option Nat) (args : α) :
    ∀ (n s : Nat) (c : MqttClient κ), 51 - s ≤ n →
      Effect.engLoopForever ∉ (spin (α := α) signalAt args c s).trace := by
  intro n
  induction n with
  | zero =>
    intro s c h
    rw [spin]
    by_cases hf : signalAt = some s <;>
      by_cases hc : c.connected <;>
        cases hoc : c.on_connect <;>
          simp [hf, hc, hoc, onConnectHandler, show s > 50 by omega]
  | succ n ih =>
    intro s c h
    rw [spin]
    by_cases hf : signalAt = some s
    · by_cases hc : c.connected
      · cases hoc : c.on_connect <;> simp [hf, hc, hoc, onConnectHandler]
      · by_cases h50 : s > 50
        · cases hoc : c.on_connect <;> simp [hf, hc, hoc, h50, onConnectHandler]
        · cases hoc : c.on_connect <;>
            simp [hf, hc, hoc, h50, onConnectHandler, ih (s + 1) _ (by omega)]
    · by_cases hc : c.connected
      · simp [hf, hc]
      · by_cases h50 : s > 50
        · simp [hf, hc, h50]
        · simp [hf, hc, h50, ih (s + 1) c (by omega)]

/-- On a not-connected wrapper, `connect` runs `_start_client`: setup calls
followed by the spin-wait on the state with the engine reference set. -/
theorem connect_spin_eq {α κ : Type} (c : MqttClient κ) (signalAt : Option Nat)
    (args : α) (h : c.connected = false) :
    connect (α := α) c signalAt args =
      { err := (spin signalAt args { c with client := true } 0).err
        state := (spin signalAt args { c with client := true } 0).state
        trace := startSetup c ++
          (spin signalAt args { c with client := true } 0).trace } := by
  simp [connect, h, startClient]

/-- Running `connect` with an engine that never signals: timeout error after 51
sleeps, state unchanged except for the engine reference. -/
theorem connect_never_timeout {α κ : Type} (c : MqttClient κ) (args : α)
    (h : c.connected = false) :
    connect (α := α) c none args =
      { err := some (.connectionError "Timeout waiting to connect to MQTT broker")
        state := { c with client := true }
        trace := startSetup c ++ List.replicate 51 Effect.sleep } := by
  rw [connect_spin_eq c none args h,
    spin_never args 51 0 { c with client := true } (by omega) (by simp [h])]

/-- Running `connect` with an engine signalling at tick `m ≤ 51`: success, with the
on-connect handler run on the engine-attached state after `m` sleeps. -/
theorem connect_signal_ok {α κ : Type} (c : MqttClient κ) (m : Nat) (args : α)
    (h : c.connected = false) (hm : m ≤ 51) :
    connect (α := α) c (some m) args =
      { err := none
        state := (onConnectHandler { c with client := true } args).1
        trace := startSetup c ++ (List.replicate m Effect.sleep ++
          (onConnectHandler { c with client := true } args).2) } := by
  rw [connect_spin_eq c (some m) args h,
    spin_signal args m 0 m { c with client := true } (by omega) hm (by simp [h])]

/-- The setup prefix contains no sleeps. -/
theorem startSetup_count_sleep {α κ : Type} [DecidableEq α] [DecidableEq κ]
    (c : MqttClient κ) :
    (startSetup (α := α) c).count Effect.sleep = 0 := by
  by_cases hu : pyTruthy c.username <;> by_cases ht : c.threaded <;>
    simp [startSetup, hu, ht, List.count_append, List.count_cons]

/-- The setup prefix contains the engine network-connect call. -/
theorem startSetup_mem_engConnect {α κ : Type} (c : MqttClient κ) :
    Effect.engConnect c.broker_host c.broker_port ∈ startSetup (α := α) c := by
  by_cases hu : pyTruthy c.username <;> simp [startSetup, hu]

/-! ### Helper lemmas: construction and the dispatch table -/

/-- Fields of a successfully constructed wrapper, read off from `__init__`. -/
theorem mqttInit_fields {κ : Type} {oc od : Option κ} {bh : Option String}
    {bp : Option Int} {cid u pw : Option String} {bm wm : Option MsgDict}
    {th : Option Bool} {c : MqttClient κ}
    (h : mqttInit oc od bh bp cid u pw bm wm th = .ok c) :
    c.subscribe_topics = [] ∧ c.on_connect = oc ∧ c.on_disconnect = od ∧
    c.broker_host = pyOrStr bh "127.0.0.1" ∧ c.broker_port = pyOrInt bp 1883 ∧
    c.client_id = cid ∧ c.username = u ∧ c.password = pw ∧
    c.threaded = pyOrBool th true ∧ c.connected = false ∧ c.client = false := by
  unfold mqttInit at h
  split at h
  · exact absurd h (by simp)
  · split at h
    · exact absurd h (by simp)
    · split at h
      · exact absurd h (by simp)
      · injection h with h
        subst h
        simp

/-- The birth/will message stored by a successful construction is the value
computed by `resolveSpec`. -/
theorem mqttInit_specs {κ : Type} {oc od : Option κ} {bh : Option String}
    {bp : Option Int} {cid u pw : Option String} {bm wm : Option MsgDict}
    {th : Option Bool} {c : MqttClient κ}
    (h : mqttInit oc od bh bp cid u pw bm wm th = .ok c) :
    resolveSpec bm (defaultSpec cid "1")
        (.attributeError "birth_message must have \"topic\" key") = .ok c.birth_message ∧
    resolveSpec wm (defaultSpec cid "0")
        (.attributeError "will_message must have \"topic\" key") = .ok c.will_message := by
  unfold mqttInit at h
  split at h
  · exact absurd h (by simp)
  · split at h
    · exact absurd h (by simp)
    · split at h
      · exact absurd h (by simp)
      · injection h with h
        subst h
        constructor <;> simp_all

/-- The only error `resolveSpec` can produce is the one it was given. -/
theorem resolveSpec_error {d : Option MsgDict} {dflt : MessageSpec}
    {err e : PyErr} (h : resolveSpec d dflt err = .error e) : e = err := by
  cases d with
  | none => simp [resolveSpec] at h
  | some dd =>
    by_cases ht : dd.truthy
    · cases htop : dd.topic with
      | none =>
        simp [resolveSpec, ht, htop] at h
        exact h.symm
      | some t => simp [resolveSpec, ht, htop] at h
    · simp [resolveSpec, ht] at h

/-- A spec argument passing `specArgOk` resolves without error. -/
theorem resolveSpec_ok_of_ok {d : Option MsgDict} (dflt : MessageSpec)
    (err : PyErr) (h : specArgOk d = true) :
    ∃ s, resolveSpec d dflt err = .ok s := by
  cases d with
  | none => exact ⟨dflt, rfl⟩
  | some dd =>
    by_cases ht : dd.truthy
    · cases htop : dd.topic with
      | none => simp [specArgOk, ht, htop] at h
      | some t =>
        exact ⟨{ topic := t, payload := dd.payload.getD none,
                 qos := dd.qos.getD 0, retain := dd.retain.getD false },
          by simp [resolveSpec, ht, htop]⟩
    · exact ⟨dflt, by simp [resolveSpec, ht]⟩

/-- Deleting a key removes it from lookup. -/
theorem dictGet_del_self {κ : Type} (d : List (String × κ)) (k : String) :
    dictGet (dictDel d k) k = none := by
  induction d with
  | nil => rfl
  | cons p d ih =>
    by_cases hp : p.1 = k
    · simpa [dictDel, hp] using ih
    · simpa [dictDel, dictGet, hp] using ih

/-- Deleting one key does not affect lookups of another key. -/
theorem dictGet_del_other {κ : Type} (d : List (String × κ)) (k k2 : String)
    (h : k2 ≠ k) :
    dictGet (dictDel d k) k2 = dictGet d k2 := by
  induction d with
  | nil => rfl
  | cons p d ih =>
    by_cases hp : p.1 = k
    · have hp2 : ¬ p.1 = k2 := by
        rw [hp]
        exact fun he => h he.symm
      simpa [dictDel, dictGet, hp, hp2, Ne.symm h] using ih
    · by_cases hp2 : p.1 = k2
      · simp [dictDel, dictGet, hp, hp2, h]
      · simpa [dictDel, dictGet, hp, hp2, h] using ih

/-- Looking up the key just assigned returns the assigned value. -/
theorem dictGet_set_self {κ : Type} (d : List (String × κ)) (k : String) (v : κ) :
    dictGet (dictSet d k v) k = some v := by
  simp [dictGet, dictSet]

/-- Assignment to one key does not affect lookups of another key. -/
theorem dictGet_set_other {κ : Type} (d : List (String × κ)) (k k2 : String)
    (v : κ) (h : k2 ≠ k) :
    dictGet (dictSet d k v) k2 = dictGet d k2 := by
  simp only [dictGet, dictSet]
  rw [if_neg (fun he => h he.symm)]
  exact dictGet_del_other d k k2 h

/-! ### Claim theorems -/

/-- C4: a caller-supplied (truthy, i.e. non-empty — the source tests the
Python truthiness of the dict, so an empty dict counts as absent) birth or will
message dict without a `topic` key makes construction fail with a
configuration error (an `AttributeError`, which is how the source renders the
ConfigurationError of the spec). -/
theorem C4_missing_topic_rejected {κ : Type} (oc od : Option κ)
    (bh : Option String) (bp : Option Int) (cid u pw : Option String)
    (bm wm : Option MsgDict) (th : Option Bool) (d : MsgDict)
    (hd : d.truthy = true) (ht : d.topic = none) :
    (∃ m, mqttInit oc od bh bp cid u pw (some d) wm th =
      .error (.attributeError m)) ∧
    (∃ m, mqttInit oc od bh bp cid u pw bm (some d) th =
      .error (.attributeError m)) := by
  constructor
  · by_cases hcred : (pyTruthy pw && !(pyTruthy u)) = true
    · exact ⟨"Must provide username if using password", by simp [mqttInit, hcred]⟩
    · exact ⟨"birth_message must have \"topic\" key",
        by simp [mqttInit, hcred, resolveSpec, hd, ht]⟩
  · by_cases hcred : (pyTruthy pw && !(pyTruthy u)) = true
    · exact ⟨"Must provide username if using password", by simp [mqttInit, hcred]⟩
    · cases hb : resolveSpec bm (defaultSpec cid "1")
        (.attributeError "birth_message must have \"topic\" key") with
      | error e =>
        obtain rfl := resolveSpec_error hb
        exact ⟨"birth_message must have \"topic\" key",
          by simp [mqttInit, hcred, hb]⟩
      | ok b =>
        refine ⟨"will_message must have \"topic\" key", ?_⟩
        unfold mqttInit
        rw [if_neg hcred, hb]
        simp [resolveSpec, hd, ht]

/-- C4 witness: a dict carrying only a payload key (hence truthy, topicless)
is rejected both as birth and as will message. -/
theorem C4_missing_topic_rejected_witness :
    (∃ m, mqttInit (κ := Nat) none none none none none none none
      (some ⟨none, some (some "x"), none, none⟩) none none =
      .error (.attributeError m)) ∧
    (∃ m, mqttInit (κ := Nat) none none none none none none none none
      (some ⟨none, some (some "x"), none, none⟩) none =
      .error (.attributeError m)) :=
  C4_missing_topic_rejected none none none none none none none none none
    none ⟨none, some (some "x"), none, none⟩ (by decide) rfl

/-- C8: a truthy password with a falsy username is rejected at construction
with the configuration error; with both credentials supplied (truthy) and
well-formed message arguments, construction succeeds and stores both
credentials. -/
theorem C8_credentials {κ : Type} (oc od : Option κ) (bh : Option String)
    (bp : Option Int) (cid : Option String) (u pw : Option String)
    (bm wm : Option MsgDict) (th : Option Bool) :
    (pyTruthy pw = true → pyTruthy u = false →
      mqttInit oc od bh bp cid u pw bm wm th =
        .error (.attributeError "Must provide username if using password")) ∧
    (pyTruthy pw = true → pyTruthy u = true →
      specArgOk bm = true → specArgOk wm = true →
      ∃ c, mqttInit oc od bh bp cid u pw bm wm th = .ok c ∧
        c.username = u ∧ c.password = pw) := by
  constructor
  · intro hpw hu
    simp [mqttInit, hpw, hu]
  · intro hpw hu hbm hwm
    obtain ⟨b, hb⟩ := resolveSpec_ok_of_ok (defaultSpec cid "1")
      (.attributeError "birth_message must have \"topic\" key") hbm
    obtain ⟨w, hw⟩ := resolveSpec_ok_of_ok (defaultSpec cid "0")
      (.attributeError "will_message must have \"topic\" key") hwm
    refine ⟨{ subscribe_topics := []
              on_connect := oc
              on_disconnect := od
              broker_host := pyOrStr bh "127.0.0.1"
              broker_port := pyOrInt bp 1883
              client_id := cid
              username := u
              password := pw
              birth_message := b
              will_message := w
              threaded := pyOrBool th true
              connected := false
              client := false }, ?_, rfl, rfl⟩
    simp [mqttInit, hpw, hu, hb, hw]

/-- C8 witness: a password alone is rejected; username plus password
construct successfully and are stored. -/
theorem C8_credentials_witness :
    mqttInit (κ := Nat) none none none none none none (some "pass")
      none none none =
      .error (.attributeError "Must provide username if using password") ∧
    (∃ c, mqttInit (κ := Nat) none none none none none (some "user")
        (some "pass") none none none = .ok c ∧
      c.username = some "user" ∧ c.password = some "pass") :=
  ⟨(C8_credentials none none none none none none (some "pass") none none
      none).1 (by decide) (by decide),
   (C8_credentials none none none none none (some "user") (some "pass") none
      none none).2 (by decide) (by decide) rfl rfl⟩

/-- C6: when no birth (respectively will) dict is supplied, the stored spec
has topic `clients/{client_id}/connected` — the f-string uses the client id
literally, rendering an absent id as `None` — payload "1" (respectively
"0"), QoS 1, retain true. -/
theorem C6_default_specs {κ : Type} (oc od : Option κ) (bh : Option String)
    (bp : Option Int) (cid u pw : Option String) (bm wm : Option MsgDict)
    (th : Option Bool) (c : MqttClient κ)
    (hok : mqttInit oc od bh bp cid u pw bm wm th = .ok c) :
    (bm = none → c.birth_message =
      { topic := "clients/" ++ pyStrOpt cid ++ "/connected"
        payload := some "1", qos := 1, retain := true }) ∧
    (wm = none → c.will_message =
      { topic := "clients/" ++ pyStrOpt cid ++ "/connected"
        payload := some "0", qos := 1, retain := true }) := by
  obtain ⟨hb, hw⟩ := mqttInit_specs hok
  constructor
  · rintro rfl
    simp [resolveSpec, defaultSpec] at hb
    exact hb.symm
  · rintro rfl
    simp [resolveSpec, defaultSpec] at hw
    exact hw.symm

/-- C6 witness: the all-default construction (in particular, no client id
supplied) stores birth and will specs on topic `clients/None/connected`. -/
theorem C6_default_specs_witness :
    clientD.birth_message =
      { topic := "clients/" ++ pyStrOpt none ++ "/connected"
        payload := some "1", qos := 1, retain := true } ∧
    clientD.will_message =
      { topic := "clients/" ++ pyStrOpt none ++ "/connected"
        payload := some "0", qos := 1, retain := true } :=
  ⟨(C6_default_specs none none none none none none none none none none
      clientD rfl).1 rfl,
   (C6_default_specs none none none none none none none none none none
      clientD rfl).2 rfl⟩

/-- C5: whatever the caller passes for `threaded` — including an explicit
`False`, swallowed by the `or True` fallback — the stored flag is true, and
consequently `connect()` on a constructed wrapper never invokes the
blocking `loop_forever` engine pathway. -/
theorem C5_threaded_always_true {α κ : Type} (oc od : Option κ)
    (bh : Option String) (bp : Option Int) (cid u pw : Option String)
    (bm wm : Option MsgDict) (th : Option Bool) (c : MqttClient κ)
    (hok : mqttInit oc od bh bp cid u pw bm wm th = .ok c) :
    c.threaded = true ∧
    ∀ (signalAt : Option Nat) (args : α),
      Effect.engLoopForever ∉ (connect (α := α) c signalAt args).trace := by
  obtain ⟨-, -, -, -, -, -, -, -, hth, hconn, -⟩ := mqttInit_fields hok
  have hthr : c.threaded = true := by
    rw [hth]
    cases th with
    | none => rfl
    | some b => cases b <;> rfl
  refine ⟨hthr, ?_⟩
  intro signalAt args
  rw [connect_spin_eq c signalAt args hconn]
  simp only [List.mem_append, not_or]
  exact ⟨by by_cases hu : pyTruthy c.username <;> simp [startSetup, hu, hthr],
    spin_no_loopForever (α := α) signalAt args 51 0 _ (by omega)⟩

/-- C5 witness: constructing with `threaded := False` still stores true, and
a connect run (engine signalling at tick 0) never reaches the blocking
loop. -/
theorem C5_threaded_always_true_witness :
    clientD.threaded = true ∧
    Effect.engLoopForever ∉ (connect (α := Nat) clientD (some 0) 7).trace :=
  ⟨(C5_threaded_always_true (α := Nat) none none none none none none none
      none none (some false) clientD rfl).1,
   (C5_threaded_always_true (α := Nat) none none none none none none none
      none none (some false) clientD rfl).2 (some 0) 7⟩

/-- C9: disconnect on a freshly constructed (never-connected) wrapper raises
nothing, performs no engine call, and leaves connected false; on every
wrapper disconnect clears the engine reference, so an immediately repeated
disconnect is again error- and effect-free with the same final state. -/
theorem C9_disconnect_safe {α κ : Type} :
    (∀ (oc od : Option κ) (bh : Option String) (bp : Option Int)
        (cid u pw : Option String) (bm wm : Option MsgDict) (th : Option Bool)
        (c : MqttClient κ), mqttInit oc od bh bp cid u pw bm wm th = .ok c →
      (disconnect (α := α) c).err = none ∧
      (disconnect (α := α) c).state.connected = false ∧
      (disconnect (α := α) c).trace = []) ∧
    (∀ c : MqttClient κ, (disconnect (α := α) c).state.client = false) ∧
    (∀ c : MqttClient κ,
      disconnect (α := α) ((disconnect (α := α) c).state) =
        { err := none, state := (disconnect (α := α) c).state, trace := [] }) := by
  refine ⟨?_, ?_, ?_⟩
  · intro oc od bh bp cid u pw bm wm th c hok
    obtain ⟨-, -, -, -, -, -, -, -, -, hconn, hcl⟩ := mqttInit_fields hok
    simp [disconnect, hcl, hconn]
  · intro c
    by_cases hcl : c.client <;> simp [disconnect, hcl]
  · intro c
    by_cases hcl : c.client <;> simp [disconnect, hcl]

/-- C9 witness: disconnect on the default-constructed wrapper, and the
repeated disconnect, at concrete inputs. -/
theorem C9_disconnect_safe_witness :
    ((disconnect (α := Nat) clientD).err = none ∧
      (disconnect (α := Nat) clientD).state.connected = false ∧
      (disconnect (α := Nat) clientD).trace = []) ∧
    (disconnect (α := Nat) clientD).state.client = false ∧
    disconnect (α := Nat) ((disconnect (α := Nat) clientD).state) =
      { err := none, state := (disconnect (α := Nat) clientD).state, trace := [] } :=
  ⟨(C9_disconnect_safe (α := Nat) (κ := Nat)).1 none none none none none none
      none none none none clientD rfl,
   (C9_disconnect_safe (α := Nat) (κ := Nat)).2.1 clientD,
   (C9_disconnect_safe (α := Nat) (κ := Nat)).2.2 clientD⟩

/-- C10: construction leaves the engine reference absent, and on any wrapper
whose engine reference is absent, subscribe fails with the `None`-handle
attribute error raised at the engine call — before the dispatch-table
insertion — leaving the table unchanged and making no engine call. -/
theorem C10_subscribe_unconnected {α κ : Type} :
    (∀ (oc od : Option κ) (bh : Option String) (bp : Option Int)
        (cid u pw : Option String) (bm wm : Option MsgDict) (th : Option Bool)
        (c : MqttClient κ), mqttInit oc od bh bp cid u pw bm wm th = .ok c →
      c.client = false) ∧
    (∀ (c : MqttClient κ) (t : String) (cb : κ) (q : Int), c.client = false →
      (subscribe (α := α) c t cb q).err =
        some (.attributeError "NoneType object has no attribute subscribe") ∧
      (subscribe (α := α) c t cb q).state.subscribe_topics =
        c.subscribe_topics ∧
      (subscribe (α := α) c t cb q).trace = []) := by
  constructor
  · intro oc od bh bp cid u pw bm wm th c hok
    exact (mqttInit_fields hok).2.2.2.2.2.2.2.2.2.2
  · intro c t cb q hcl
    simp [subscribe, hcl]

/-- C10 witness: subscribing on the default-constructed wrapper (no engine
reference) fails and registers nothing. -/
theorem C10_subscribe_unconnected_witness :
    clientD.client = false ∧
    ((subscribe (α := Nat) clientD "a/b" 5 1).err =
      some (.attributeError "NoneType object has no attribute subscribe") ∧
    (subscribe (α := Nat) clientD "a/b" 5 1).state.subscribe_topics =
      clientD.subscribe_topics ∧
    (subscribe (α := Nat) clientD "a/b" 5 1).trace = []) :=
  ⟨(C10_subscribe_unconnected (α := Nat) (κ := Nat)).1 none none none none
      none none none none none none clientD rfl,
   (C10_subscribe_unconnected (α := Nat) (κ := Nat)).2 clientD "a/b" 5 1 rfl⟩

/-- C3: on a not-connected wrapper in threaded mode, connect() with an
engine that never signals raises the connection-timeout error after the
bounded spin-wait (exactly 51 sleeps of 0.1 time-units — the loop raises at
the first accumulated time strictly exceeding the 5-time-unit timeout);
when the engine signals within the timeout, connect() returns without
error. -/
theorem C3_connect_timeout {α κ : Type} [DecidableEq α] [DecidableEq κ]
    (c : MqttClient κ) (args : α)
    (hconn : c.connected = false) (hthr : c.threaded = true) :
    ((connect (α := α) c none args).err =
        some (.connectionError "Timeout waiting to connect to MQTT broker") ∧
      (connect (α := α) c none args).trace.count Effect.sleep = 51) ∧
    (∀ m : Nat, m ≤ 50 → (connect (α := α) c (some m) args).err = none) := by
  constructor
  · rw [connect_never_timeout c args hconn]
    refine ⟨rfl, ?_⟩
    simp [List.count_append, List.count_replicate, startSetup_count_sleep]
  · intro m hm
    rw [connect_signal_ok c m args hconn (by omega)]

/-- C3 witness: on the default-constructed wrapper, a never-signalling
engine yields the timeout after 51 sleeps, and a signal at tick 3 lets
connect return without error. -/
theorem C3_connect_timeout_witness :
    ((connect (α := Nat) clientD none 7).err =
        some (.connectionError "Timeout waiting to connect to MQTT broker") ∧
      (connect (α := Nat) clientD none 7).trace.count Effect.sleep = 51) ∧
    (connect (α := Nat) clientD (some 3) 7).err = none :=
  ⟨(C3_connect_timeout clientD 7 rfl rfl).1,
   (C3_connect_timeout clientD 7 rfl rfl).2 3 (by omega)⟩

/-- C2: after subscribe(t, cb, qos) on a wrapper with an engine reference,
an incoming message on t dispatches to cb with the event
client/userdata/message arguments; a message on a topic that was never
registered dispatches nothing; after unsubscribe(t), a message on t
dispatches nothing. -/
theorem C2_dispatch {α κ : Type} (c : MqttClient κ) (t t2 : String) (cb : κ)
    (q : Int) (cl ud : α) (dt dt2 : α)
    (hcl : c.client = true) (hnever : dictGet c.subscribe_topics t2 = none)
    (hne : t2 ≠ t) :
    (subscribe (α := α) c t cb q).err = none ∧
    onMessage ((subscribe (α := α) c t cb q).state) cl ud ⟨t, dt⟩ =
      [Effect.msgCallback cb cl ud ⟨t, dt⟩] ∧
    onMessage ((subscribe (α := α) c t cb q).state) cl ud ⟨t2, dt2⟩ = [] ∧
    onMessage ((unsubscribe (α := α)
        ((subscribe (α := α) c t cb q).state) t).state) cl ud ⟨t, dt⟩ = [] := by
  refine ⟨by simp [subscribe, hcl], ?_, ?_, ?_⟩
  · simp [subscribe, hcl, onMessage, dictGet_set_self]
  · simp [subscribe, hcl, onMessage, dictGet_set_other _ _ _ _ hne, hnever]
  · simp [subscribe, hcl, unsubscribe, dictGet_set_self, onMessage,
      dictGet_del_self]

/-- C2 witness: subscribe "a/b" on a connected wrapper, dispatch on "a/b",
silence on the never-registered "a/c", silence on "a/b" after
unsubscribe. -/
theorem C2_dispatch_witness :
    (subscribe (α := Nat) { clientD with client := true } "a/b" 5 1).err = none ∧
    onMessage ((subscribe (α := Nat) { clientD with client := true }
        "a/b" 5 1).state) 1 2 ⟨"a/b", 3⟩ =
      [Effect.msgCallback 5 1 2 ⟨"a/b", 3⟩] ∧
    onMessage ((subscribe (α := Nat) { clientD with client := true }
        "a/b" 5 1).state) 1 2 ⟨"a/c", 4⟩ = [] ∧
    onMessage ((unsubscribe (α := Nat) ((subscribe (α := Nat)
        { clientD with client := true } "a/b" 5 1).state) "a/b").state)
      1 2 ⟨"a/b", 3⟩ = [] :=
  C2_dispatch { clientD with client := true } "a/b" "a/c" 5 1 1 2 3 4
    rfl rfl (by decide)

/-- C1: on a constructed wrapper whose engine signals the connect event,
connect() ends with the connected state true, and its effect trace is the
engine setup followed by the birth publish — with exactly the stored
topic, payload, qos and retain values — followed by the caller-supplied
on_connect hook (when present) receiving the event arguments unchanged:
publish strictly before hook. -/
theorem C1_connect_birth {α κ : Type} (oc od : Option κ) (bh : Option String)
    (bp : Option Int) (cid u pw : Option String) (bm wm : Option MsgDict)
    (th : Option Bool) (c : MqttClient κ) (args : α)
    (hok : mqttInit oc od bh bp cid u pw bm wm th = .ok c) :
    (connect (α := α) c (some 0) args).err = none ∧
    (connect (α := α) c (some 0) args).state.connected = true ∧
    (connect (α := α) c (some 0) args).trace =
      startSetup c ++
        (Effect.engPublish c.birth_message.topic c.birth_message.payload
            c.birth_message.qos c.birth_message.retain ::
          (match oc with
            | some h => [Effect.hookCall h args]
            | none => [])) := by
  obtain ⟨-, hoc, -, -, -, -, -, -, -, hconn, -⟩ := mqttInit_fields hok
  rw [connect_signal_ok c 0 args hconn (by omega)]
  refine ⟨rfl, by simp [onConnectHandler], ?_⟩
  simp [onConnectHandler, hoc]

/-- C1 witness: the default-constructed wrapper with an engine signalling
at tick 0 connects and publishes its birth message before the (absent)
hook. -/
theorem C1_connect_birth_witness :
    (connect (α := Nat) clientD (some 0) 7).err = none ∧
    (connect (α := Nat) clientD (some 0) 7).state.connected = true ∧
    (connect (α := Nat) clientD (some 0) 7).trace =
      startSetup clientD ++
        (Effect.engPublish clientD.birth_message.topic
            clientD.birth_message.payload clientD.birth_message.qos
            clientD.birth_message.retain ::
          (match (none : Option Nat) with
            | some h => [Effect.hookCall h 7]
            | none => [])) :=
  C1_connect_birth none none none none none none none none none none
    clientD 7 rfl

/-- C7: publish on a disconnected wrapper (engine signalling within the
timeout) produces exactly the effect trace of connect() — which includes the
engine network-connect call — followed by the engine publish; on an
already-connected wrapper it publishes directly. -/
theorem C7_publish_connects_first {α κ : Type} (c : MqttClient κ) (args : α)
    (t msg : String) :
    (∀ m : Nat, c.connected = false → m ≤ 50 →
      (publish (α := α) c (some m) args t msg).trace =
        (connect (α := α) c (some m) args).trace ++
          [Effect.engPublish t (some msg) 0 false] ∧
      Effect.engConnect c.broker_host c.broker_port ∈
        (connect (α := α) c (some m) args).trace) ∧
    (∀ signalAt : Option Nat, c.connected = true → c.client = true →
      (publish (α := α) c signalAt args t msg).trace =
        [Effect.engPublish t (some msg) 0 false]) := by
  constructor
  · intro m hconn hm
    have hc := connect_signal_ok (α := α) c m args hconn (by omega)
    rw [hc]
    constructor
    · simp [publish, hconn, hc, onConnectHandler]
    · exact List.mem_append_left _ (startSetup_mem_engConnect c)
  · intro signalAt hconn hcl
    simp [publish, hconn, hcl]

/-- C7 witness: publish on the disconnected default wrapper connects first
and publishes last; publish on a connected wrapper publishes directly. -/
theorem C7_publish_connects_first_witness :
    ((publish (α := Nat) clientD (some 0) 7 "t" "m").trace =
      (connect (α := Nat) clientD (some 0) 7).trace ++
        [Effect.engPublish "t" (some "m") 0 false] ∧
      Effect.engConnect clientD.broker_host clientD.broker_port ∈
        (connect (α := Nat) clientD (some 0) 7).trace) ∧
    (publish (α := Nat) { clientD with connected := true, client := true }
        (some 0) 7 "t" "m").trace =
      [Effect.engPublish "t" (some "m") 0 false] :=
  ⟨(C7_publish_connects_first clientD 7 "t" "m").1 0 rfl (by omega),
   (C7_publish_connects_first { clientD with connected := true, client := true }
      7 "t" "m").2 (some 0) rfl rfl⟩

end EasyMqtt
